import Mathlib

/-!
Shallow embedding of the data-aggregation core of `covid_data.py`
(class `CovidData`: methods `routesToWeightedEdges` and `getData`).

A pandas DataFrame is modelled as a list of rows.  Missing values (NaN)
in the location-key string columns are modelled as `none`; the source
applies `.fillna("none")` to a deep copy before any other work, which we
model as mapping `Option.getD "none"` over the key fields.  Numeric
columns (Lat, Long, date counts) are modelled as `Rat` / `Int` and are
assumed non-missing, as in the datasets the program consumes.

`groupby(keys)[col].sum()` / `groupby(keys).agg(...)` are modelled by
collecting the distinct key tuples of the rows (pandas additionally
sorts the groups; no claim concerns output row order) and aggregating
the rows of each group.  `reset_index()` is modelled by the aggregated
table carrying its group-key columns (`keyCols`) in front of its value
columns (`valCols`).

Python `assert` failures and the `IndexError` of `dates[-1]` on an
empty list are modelled by `Except DataError`; a Python function that
falls through without returning is modelled by `Option` result `none`.
-/

namespace CovidNetwork

/-- A row of the airport-routes table (`dataset/airport_routes.csv`).
Only the six location columns used by the aggregation are modelled
(`DepartCounty`, `DepartProvince/State`, `DepartCountry/Region`,
`ArrivalCounty`, `ArrivalProvince/State`, `ArrivalCountry/Region`);
the auxiliary airport-code columns are never read by
`routesToWeightedEdges`.  `none` models a pandas NaN cell. -/
structure RouteRow where
  depCounty : Option String
  depProvince : Option String
  depCountry : Option String
  arrCounty : Option String
  arrProvince : Option String
  arrCountry : Option String
  deriving DecidableEq, Repr

/-- A row of a confirmed/deaths/recovered table: the five leading
columns (County, Province/State, Country/Region, Lat, Long) followed by
one integer per date column, positionally aligned with the owning
table's `dates` list (`columns[5:]` in the source). -/
structure CovidRow where
  county : Option String
  province : Option String
  countryRegion : Option String
  lat : Rat
  long : Rat
  dateVals : List Int
  deriving DecidableEq, Repr

/-- A confirmed/deaths/recovered table: its date-column names
(`df.columns[5:]`) and its rows. -/
structure CovidTable where
  dates : List String
  rows : List CovidRow
  deriving DecidableEq, Repr

/-- The state of a `CovidData` instance after `__init__`: the four
stored dataframes. -/
structure CovidState where
  confirmed_df : CovidTable
  deaths_df : CovidTable
  recovered_df : CovidTable
  routes_df : List RouteRow
  deriving DecidableEq, Repr

/-- `.fillna("none")` on a route row: every missing location field
becomes the string `"none"`. -/
def fillRouteRow (r : RouteRow) : RouteRow :=
  { depCounty := some (r.depCounty.getD "none")
    depProvince := some (r.depProvince.getD "none")
    depCountry := some (r.depCountry.getD "none")
    arrCounty := some (r.arrCounty.getD "none")
    arrProvince := some (r.arrProvince.getD "none")
    arrCountry := some (r.arrCountry.getD "none") }

/-- `.fillna("none")` on a covid row (key fields; numeric fields are
assumed non-missing, see the header comment). -/
def fillCovidRow (r : CovidRow) : CovidRow :=
  { r with
    county := some (r.county.getD "none")
    province := some (r.province.getD "none")
    countryRegion := some (r.countryRegion.getD "none") }

/-- `df.copy(deep=True).fillna("none")` on a covid table. -/
def fillTable (t : CovidTable) : CovidTable :=
  { t with rows := t.rows.map fillCovidRow }

/-- The country filter of `getData`
(`df.loc[df[Country/Region] == country]`); `none` means no filter. -/
def countryFilter (country : Option String) (t : CovidTable) : CovidTable :=
  { t with
    rows := match country with
      | none => t.rows
      | some c => t.rows.filter (fun r => r.countryRegion = some c) }

/-- The country filter of `routesToWeightedEdges`: keep the rows whose
departure AND arrival country both equal the requested country. -/
def routeCountryFilter (country : Option String) (rows : List RouteRow) : List RouteRow :=
  match country with
  | none => rows
  | some c => rows.filter (fun r => r.depCountry = some c ∧ r.arrCountry = some c)

/-- Group key of a route row at county granularity: the six location
columns, in the order listed in the source. -/
def countyRouteKey (r : RouteRow) : List (Option String) :=
  [r.depCounty, r.depProvince, r.depCountry, r.arrCounty, r.arrProvince, r.arrCountry]

/-- Group key of a route row at state granularity. -/
def stateRouteKey (r : RouteRow) : List (Option String) :=
  [r.depProvince, r.depCountry, r.arrProvince, r.arrCountry]

/-- Group key of a route row at country granularity. -/
def countryRouteKey (r : RouteRow) : List (Option String) :=
  [r.depCountry, r.arrCountry]

/-- The aggregated route table: one entry per distinct group key,
paired with the group's `NumberOfRoutes` sum. -/
abbrev RoutesAgg := List (List (Option String) × Nat)

/-- `new_routes_df['NumberOfRoutes'] = 1` followed by
`groupby(keys)['NumberOfRoutes'].sum().reset_index()`: every row
carries the counter 1 and the group sums it. -/
def groupRouteCounts (keyOf : RouteRow → List (Option String)) (rows : List RouteRow) :
    RoutesAgg :=
  ((rows.map keyOf).dedup).map fun k =>
    (k, ((rows.filter (fun r => keyOf r = k)).map (fun _ => (1 : Nat))).sum)

/-- `CovidData.routesToWeightedEdges`.  A deep copy of the stored route
table is filled with `"none"`, optionally restricted to one country,
and grouped at the requested granularity.  For a `bin_region_column`
outside county/state/country the Python function falls off the end and
returns `None`, modelled by result `none`. -/
def routesToWeightedEdges (routes_df : List RouteRow) (bin_region_column : String)
    (country : Option String) : Option RoutesAgg :=
  let new_routes := routeCountryFilter country (routes_df.map fillRouteRow)
  if bin_region_column = "county" then some (groupRouteCounts countyRouteKey new_routes)
  else if bin_region_column = "state" then some (groupRouteCounts stateRouteKey new_routes)
  else if bin_region_column = "country" then some (groupRouteCounts countryRouteKey new_routes)
  else none

/-- The failure modes of `getData`: the granularity assertion, the
specific-date assertion (carrying the offending value), and the Python
`IndexError` of `dates[-1]` when there are no date columns. -/
inductive DataError where
  | invalidGranularity
  | invalidDate (d : String)
  | latestIndexError
  deriving DecidableEq, Repr

/-- The message attached to each failure, as produced by the source's
`assert` statements and by CPython for `dates[-1]` on an empty list. -/
def errMsg : DataError → String
  | DataError.invalidGranularity =>
      "Invalid region parsed to bin_region_column! Needs to be county, state or country"
  | DataError.invalidDate d =>
      d ++ " is not a valid date. Check the covid .csv files for what a valid dates look like!"
  | DataError.latestIndexError => "list index out of range"

/-- The date-selection logic of `getData` (its `specific_date`
branches): `none` keeps every date column; a literal date must occur
among the date columns, otherwise the assertion fails naming it;
`"latest"` takes the last date column, an `IndexError` if there is
none. -/
def selectedDates (dates : List String) (specific_date : Option String) :
    Except DataError (List String) :=
  match specific_date with
  | none => Except.ok dates
  | some d =>
    if d = "latest" then
      match dates.getLast? with
      | some latest_date => Except.ok [latest_date]
      | none => Except.error DataError.latestIndexError
    else if d ∈ dates then Except.ok [d]
    else Except.error (DataError.invalidDate d)

/-- One row of an aggregated covid table: the group key
(`reset_index()` restores it as leading columns), the Lat/Long means,
and one sum per selected date column. -/
structure AggRow where
  key : List (Option String)
  lat : Rat
  long : Rat
  dateSums : List Int
  deriving DecidableEq, Repr

/-- An aggregated covid table: its group-key column names, its value
column names (`new_columns = ['Lat', 'Long'] + dates` of the source),
and its rows.  The full column order is `keyCols ++ valCols`. -/
structure AggTable where
  keyCols : List String
  valCols : List String
  rows : List AggRow
  deriving DecidableEq, Repr

/-- Mean of a list of rationals (pandas `mean`; groups are never
empty). -/
def ratMean (xs : List Rat) : Rat := xs.sum / (xs.length : Rat)

/-- The value of row `r` in date column `d`, looked up by column name
as pandas does (positionally the row's values align with `dates`). -/
def lookupDate (dates : List String) (r : CovidRow) (d : String) : Int :=
  ((dates.zip r.dateVals).lookup d).getD 0

/-- Group key of a covid row at state granularity
(`groupby(['Province/State', 'Country/Region'])`). -/
def covidStateKey (r : CovidRow) : List (Option String) :=
  [r.province, r.countryRegion]

/-- Group key of a covid row at country granularity
(`groupby(['Country/Region'])`). -/
def covidCountryKey (r : CovidRow) : List (Option String) :=
  [r.countryRegion]

/-- `groupby(keys).agg(agg_dict)` followed by the renaming
`new_df.columns = new_columns` and `reset_index()`: per group, Lat and
Long become means and each selected date column becomes a sum. -/
def aggregate (keyCols : List String) (keyOf : CovidRow → List (Option String))
    (t : CovidTable) (sel : List String) : AggTable :=
  { keyCols := keyCols
    valCols := ["Lat", "Long"] ++ sel
    rows := ((t.rows.map keyOf).dedup).map fun k =>
      { key := k
        lat := ratMean ((t.rows.filter (fun r => keyOf r = k)).map (fun r => r.lat))
        long := ratMean ((t.rows.filter (fun r => keyOf r = k)).map (fun r => r.long))
        dateSums := sel.map fun d =>
          ((t.rows.filter (fun r => keyOf r = k)).map (fun r => lookupDate t.dates r d)).sum } }

/-- A value of the dictionary returned by `getData`: at county
granularity the (filled, filtered) table passes through untouched
(`raw`); at state/country granularity it is replaced by the grouped
table (`agg`). -/
inductive TableRes where
  | raw (t : CovidTable)
  | agg (t : AggTable)
  deriving DecidableEq, Repr

/-- The dictionary built by `getData`: keys `'confirmed'`, `'deaths'`,
and — only when `bin_region_column == 'country'` — `'recovered'`. -/
structure DataDict where
  confirmed : TableRes
  deaths : TableRes
  recovered : Option TableRes
  deriving DecidableEq, Repr

/-- The values of the dictionary, in insertion order. -/
def dictTables (dd : DataDict) : List TableRes :=
  [dd.confirmed, dd.deaths] ++ dd.recovered.toList

/-- The per-table body of the grouping loop of `getData`: county is a
passthrough (`continue`), state and country group by their key
fields. -/
def processTable (bin_region_column : String) (sel : List String) (t : CovidTable) :
    TableRes :=
  if bin_region_column = "state" then
    TableRes.agg (aggregate ["Province/State", "Country/Region"] covidStateKey t sel)
  else if bin_region_column = "country" then
    TableRes.agg (aggregate ["Country/Region"] covidCountryKey t sel)
  else TableRes.raw t

/-- `CovidData.getData`.  The granularity assertion runs first; each
stored table is deep-copied, filled with `"none"` and optionally
country-filtered (the recovered table participates only at country
granularity); the date columns are read off the confirmed table
(copying, filling and filtering leave the columns unchanged); the date
selection may fail; finally each table is grouped and the route table
aggregated at the same granularity and country. -/
def getData (st : CovidState) (bin_region_column : String) (country : Option String)
    (specific_date : Option String) :
    Except DataError (DataDict × Option RoutesAgg) :=
  if bin_region_column = "county" ∨ bin_region_column = "state" ∨
      bin_region_column = "country" then
    match selectedDates (countryFilter country (fillTable st.confirmed_df)).dates
        specific_date with
    | Except.error e => Except.error e
    | Except.ok sel =>
      Except.ok
        ({ confirmed :=
             processTable bin_region_column sel (countryFilter country (fillTable st.confirmed_df))
           deaths :=
             processTable bin_region_column sel (countryFilter country (fillTable st.deaths_df))
           recovered :=
             if bin_region_column = "country" then
               some (processTable bin_region_column sel
                 (countryFilter country (fillTable st.recovered_df)))
             else none },
         routesToWeightedEdges st.routes_df bin_region_column country)
  else Except.error DataError.invalidGranularity

/-! ## Concrete sample data for the witnesses, taken from the examples
of the specification (a US/CA route table and a two-state covid
table). -/

/-- Route `A → B` inside the US. -/
def rUS : RouteRow := ⟨some "A", none, some "US", some "B", none, some "US"⟩

/-- Route `A → C` inside Canada. -/
def rCA : RouteRow := ⟨some "A", none, some "CA", some "C", none, some "CA"⟩

/-- The three-row route table of the specification's example. -/
def wRoutes : List RouteRow := [rUS, rUS, rCA]

/-- A small covid table: states X, X, Y of country Z with two date
columns. -/
def wConfirmed : CovidTable :=
  { dates := ["1/22/20", "1/23/20"]
    rows :=
      [ ⟨some "none", some "X", some "Z", 1, 2, [1, 5]⟩,
        ⟨some "none", some "X", some "Z", 3, 4, [2, 6]⟩,
        ⟨some "none", some "Y", some "Z", 5, 6, [3, 7]⟩ ] }

/-- A deaths table over the same locations and dates. -/
def wDeaths : CovidTable :=
  { dates := ["1/22/20", "1/23/20"]
    rows :=
      [ ⟨some "none", some "X", some "Z", 1, 2, [0, 1]⟩,
        ⟨some "none", some "Y", some "Z", 5, 6, [1, 2]⟩ ] }

/-- A recovered table over the same locations and dates. -/
def wRecovered : CovidTable :=
  { dates := ["1/22/20", "1/23/20"]
    rows := [ ⟨some "none", some "X", some "Z", 1, 2, [0, 4]⟩ ] }

/-- A concrete instance state. -/
def wState : CovidState :=
  { confirmed_df := wConfirmed
    deaths_df := wDeaths
    recovered_df := wRecovered
    routes_df := wRoutes }

/-! ## General lemmas about grouping -/

/-- The rows of a group are counted by the key's multiplicity in the
mapped key list. -/
lemma filter_key_length_eq_count {α κ : Type} [DecidableEq κ] (f : α → κ) (l : List α)
    (k : κ) : (l.filter (fun x => f x = k)).length = (l.map f).count k := by
  rw [← List.countP_eq_length_filter, List.count, List.countP_map]
  rfl

/-- The groups of a grouping partition the rows: the group sizes sum to
the number of rows. -/
lemma sum_over_groups {α κ : Type} [DecidableEq κ] (f : α → κ) (l : List α) :
    ((l.map f).dedup.map (fun k => (l.filter (fun x => f x = k)).length)).sum = l.length := by
  have h := List.sum_map_count_dedup_eq_length (l.map f)
  rw [List.length_map] at h
  rw [← h]
  exact congrArg List.sum (List.map_congr_left (fun k _ => filter_key_length_eq_count f l k))

/-- Summing the constant counter 1 over a list counts its elements. -/
lemma sum_ones {β : Type} (l : List β) : ((l.map (fun _ => (1 : Nat))).sum) = l.length := by
  induction l with
  | nil => rfl
  | cons a l ih => simp [ih, Nat.add_comm]

/-- The `NumberOfRoutes` sums of an aggregated route table add up to
the number of grouped rows. -/
lemma groupRouteCounts_total (keyOf : RouteRow → List (Option String))
    (rows : List RouteRow) :
    ((groupRouteCounts keyOf rows).map Prod.snd).sum = rows.length := by
  unfold groupRouteCounts
  rw [List.map_map]
  have h : ∀ k ∈ (rows.map keyOf).dedup,
      (Prod.snd ∘ fun k => (k, ((rows.filter (fun r => keyOf r = k)).map
        (fun _ => (1 : Nat))).sum)) k = (rows.filter (fun r => keyOf r = k)).length :=
    fun k _ => sum_ones _
  rw [List.map_congr_left h]
  exact sum_over_groups keyOf rows

/-- There are at most as many groups as grouped rows. -/
lemma dedup_map_length_le {α κ : Type} [DecidableEq κ] (f : α → κ) (l : List α) :
    ((l.map f).dedup).length ≤ l.length := by
  have h := (List.dedup_sublist (l.map f)).length_le
  rwa [List.length_map] at h

lemma groupRouteCounts_length_le (keyOf : RouteRow → List (Option String))
    (rows : List RouteRow) : (groupRouteCounts keyOf rows).length ≤ rows.length := by
  unfold groupRouteCounts
  rw [List.length_map]
  exact dedup_map_length_le keyOf rows

lemma aggregate_rows_length_le (keyCols : List String)
    (keyOf : CovidRow → List (Option String)) (t : CovidTable) (sel : List String) :
    (aggregate keyCols keyOf t sel).rows.length ≤ t.rows.length := by
  unfold aggregate
  simp only [List.length_map]
  exact dedup_map_length_le keyOf t.rows

/-! ## Small unfolding lemmas -/

/-- The country filter leaves the date columns unchanged. -/
lemma countryFilter_dates (country : Option String) (t : CovidTable) :
    (countryFilter country t).dates = t.dates := rfl

/-- Filling missing values leaves the date columns unchanged. -/
lemma fillTable_dates (t : CovidTable) : (fillTable t).dates = t.dates := rfl

/-- Filtering a mapped list is mapping the filtered list. -/
lemma filter_map_comm {α β : Type} (f : α → β) (p : β → Bool) (l : List α) :
    (l.map f).filter p = (l.filter (fun x => p (f x))).map f := by
  induction l with
  | nil => rfl
  | cons a l ih =>
    simp only [List.map_cons, List.filter_cons]
    cases h : p (f a) <;> simp [h, ih]

lemma processTable_state (sel : List String) (t : CovidTable) :
    processTable "state" sel t =
      TableRes.agg (aggregate ["Province/State", "Country/Region"] covidStateKey t sel) := rfl

lemma processTable_country (sel : List String) (t : CovidTable) :
    processTable "country" sel t =
      TableRes.agg (aggregate ["Country/Region"] covidCountryKey t sel) := by
  unfold processTable
  rw [if_neg (by decide), if_pos rfl]

lemma processTable_county (sel : List String) (t : CovidTable) :
    processTable "county" sel t = TableRes.raw t := by
  unfold processTable
  rw [if_neg (by decide), if_neg (by decide)]

lemma aggregate_valCols (keyCols : List String) (keyOf : CovidRow → List (Option String))
    (t : CovidTable) (sel : List String) :
    (aggregate keyCols keyOf t sel).valCols = ["Lat", "Long"] ++ sel := rfl

/-- Inversion of a successful `getData` call: the granularity was
valid, the date selection succeeded, and the result is the processed
dictionary paired with the aggregated routes. -/
lemma getData_ok_inv (st : CovidState) (g : String) (country sd : Option String)
    (out : DataDict × Option RoutesAgg)
    (h : getData st g country sd = Except.ok out) :
    (g = "county" ∨ g = "state" ∨ g = "country") ∧
    ∃ sel, selectedDates st.confirmed_df.dates sd = Except.ok sel ∧
      out = ({ confirmed :=
                 processTable g sel (countryFilter country (fillTable st.confirmed_df))
               deaths :=
                 processTable g sel (countryFilter country (fillTable st.deaths_df))
               recovered :=
                 if g = "country" then
                   some (processTable g sel (countryFilter country (fillTable st.recovered_df)))
                 else none },
             routesToWeightedEdges st.routes_df g country) := by
  by_cases hg : g = "county" ∨ g = "state" ∨ g = "country"
  · refine ⟨hg, ?_⟩
    unfold getData at h
    rw [if_pos hg] at h
    split at h
    · exact absurd h (by simp)
    · next sel hsel =>
        injection h with h2
        rw [countryFilter_dates, fillTable_dates] at hsel
        exact ⟨sel, hsel, h2.symm⟩
  · unfold getData at h
    rw [if_neg hg] at h
    exact absurd h (by simp)

/-! ## C1 -/

/-- C1: for every raw route table, every granularity in
{county, state, country} and every optional country filter, the sum of
the `NumberOfRoutes` column of the table returned by
`routesToWeightedEdges` equals the number of rows of the raw route
table after the optional country filter: each raw row contributes
exactly 1. -/
theorem routes_number_conservation (routes : List RouteRow) (g : String)
    (country : Option String)
    (hg : g = "county" ∨ g = "state" ∨ g = "country") :
    ∃ tbl, routesToWeightedEdges routes g country = some tbl ∧
      (tbl.map Prod.snd).sum =
        (routeCountryFilter country (routes.map fillRouteRow)).length := by
  rcases hg with h | h | h <;> subst h <;>
    exact ⟨_, rfl, groupRouteCounts_total _ _⟩

/-- C1 witness: the conservation theorem applied to the specification's
three-route example at country granularity with no filter. -/
theorem routes_number_conservation_witness :
    ("country" = "county" ∨ "country" = "state" ∨ "country" = "country") ∧
    (∃ tbl, routesToWeightedEdges wRoutes "country" none = some tbl ∧
      (tbl.map Prod.snd).sum =
        (routeCountryFilter none (wRoutes.map fillRouteRow)).length) :=
  ⟨by decide, routes_number_conservation wRoutes "country" none (by decide)⟩

/-! ## C2 -/

/-- C2 counterexample: called directly with the invalid granularity
`"region"`, `routesToWeightedEdges` does not fail with an
invalid-argument error: it performs the filtering work and then falls
off the end of the function, returning Python `None` (modelled `none`)
as a normal result. -/
theorem routesToWeightedEdges_invalid_granularity_no_error :
    routesToWeightedEdges wRoutes "region" none = none := by decide

/-- C2 amended: for a granularity outside {county, state, country},
`getData` fails with the invalid-argument assertion before any
aggregation work, while `routesToWeightedEdges` performs no validation
and returns `None` (no table) without raising an error. -/
theorem invalid_granularity_behaviour (g : String)
    (hg : ¬(g = "county" ∨ g = "state" ∨ g = "country")) :
    (∀ st country sd, getData st g country sd = Except.error DataError.invalidGranularity) ∧
    (∀ routes country, routesToWeightedEdges routes g country = none) := by
  have h1 : ¬g = "county" := fun h => hg (Or.inl h)
  have h2 : ¬g = "state" := fun h => hg (Or.inr (Or.inl h))
  have h3 : ¬g = "country" := fun h => hg (Or.inr (Or.inr h))
  constructor
  · intro st country sd
    unfold getData
    rw [if_neg hg]
  · intro routes country
    simp [routesToWeightedEdges, h1, h2, h3]

/-- C2 witness: the amended behaviour at the concrete invalid
granularity `"province"`. -/
theorem invalid_granularity_behaviour_witness :
    (¬("province" = "county" ∨ "province" = "state" ∨ "province" = "country")) ∧
    ((∀ st country sd,
        getData st "province" country sd = Except.error DataError.invalidGranularity) ∧
     (∀ routes country, routesToWeightedEdges routes "province" country = none)) :=
  ⟨by decide, invalid_granularity_behaviour "province" (by decide)⟩

/-! ## C3 -/

/-- C3: a `specific_date` that is neither `None` nor `"latest"` and is
not among the date columns makes `getData` fail with the
invalid-argument assertion whose message names the offending value, at
every valid granularity, county included. -/
theorem invalid_date_fails_naming_value (st : CovidState) (g : String)
    (country : Option String) (d : String)
    (hg : g = "county" ∨ g = "state" ∨ g = "country")
    (hne : d ≠ "latest") (hmem : d ∉ st.confirmed_df.dates) :
    getData st g country (some d) = Except.error (DataError.invalidDate d) ∧
    errMsg (DataError.invalidDate d) =
      d ++ " is not a valid date. Check the covid .csv files for what a valid dates look like!" := by
  refine ⟨?_, rfl⟩
  unfold getData
  rw [if_pos hg]
  have hsel : selectedDates (countryFilter country (fillTable st.confirmed_df)).dates (some d)
      = Except.error (DataError.invalidDate d) := by
    rw [countryFilter_dates, fillTable_dates]
    simp only [selectedDates]
    rw [if_neg hne, if_neg hmem]
  rw [hsel]

/-- C3 witness: the specification's example date `"2020-13-40"` at
county granularity on the concrete state. -/
theorem invalid_date_fails_naming_value_witness :
    (("county" = "county" ∨ "county" = "state" ∨ "county" = "country") ∧
      "2020-13-40" ≠ "latest" ∧ "2020-13-40" ∉ wState.confirmed_df.dates) ∧
    (getData wState "county" none (some "2020-13-40") =
        Except.error (DataError.invalidDate "2020-13-40") ∧
      errMsg (DataError.invalidDate "2020-13-40") =
        "2020-13-40" ++
          " is not a valid date. Check the covid .csv files for what a valid dates look like!") :=
  ⟨⟨by decide, by decide, by decide⟩,
    invalid_date_fails_naming_value wState "county" none "2020-13-40"
      (by decide) (by decide) (by decide)⟩

/-! ## C4 -/

/-- C4: at county granularity a successful `getData` call passes the
(optionally country-filtered) input tables through unchanged — no
grouping, renaming or other transformation — provided the inputs
already carry the `"none"` sentinel of the data model (so that
`fillna` has nothing to change); the recovered key is absent. -/
theorem county_granularity_passthrough (st : CovidState) (country sd : Option String)
    (out : DataDict × Option RoutesAgg)
    (hfc : fillTable st.confirmed_df = st.confirmed_df)
    (hfd : fillTable st.deaths_df = st.deaths_df)
    (h : getData st "county" country sd = Except.ok out) :
    out.1.confirmed = TableRes.raw (countryFilter country st.confirmed_df) ∧
    out.1.deaths = TableRes.raw (countryFilter country st.deaths_df) ∧
    out.1.recovered = none := by
  obtain ⟨-, sel, hsel, hout⟩ := getData_ok_inv st "county" country sd out h
  subst hout
  refine ⟨?_, ?_, ?_⟩
  · show processTable "county" sel (countryFilter country (fillTable st.confirmed_df)) = _
    rw [hfc, processTable_county]
  · show processTable "county" sel (countryFilter country (fillTable st.deaths_df)) = _
    rw [hfd, processTable_county]
  · show (if "county" = "country" then
        some (processTable "county" sel (countryFilter country (fillTable st.recovered_df)))
      else none) = (none : Option TableRes)
    rw [if_neg (by decide)]

/-- C4 witness: the passthrough at county granularity on the concrete
state (whose tables carry no missing values). -/
theorem county_granularity_passthrough_witness :
    ∃ out, getData wState "county" none none = Except.ok out ∧
      (out.1.confirmed = TableRes.raw (countryFilter none wState.confirmed_df) ∧
       out.1.deaths = TableRes.raw (countryFilter none wState.deaths_df) ∧
       out.1.recovered = none) := by
  refine ⟨_, rfl, county_granularity_passthrough wState none none _
    (by decide) (by decide) rfl⟩

/-! ## C5 -/

/-- C5: with a country filter, `routesToWeightedEdges` groups exactly
over the route rows whose departure AND arrival country fields both
equal that country: the call equals the unfiltered call on the input
restricted to those rows, so every row failing either equality is
excluded before grouping. -/
theorem country_filter_restricts_rows (routes : List RouteRow) (g : String) (c : String) :
    routesToWeightedEdges routes g (some c) =
      routesToWeightedEdges
        (routes.filter (fun r =>
          (fillRouteRow r).depCountry = some c ∧ (fillRouteRow r).arrCountry = some c))
        g none := by
  unfold routesToWeightedEdges
  have h : routeCountryFilter (some c) (routes.map fillRouteRow) =
      routeCountryFilter none
        ((routes.filter (fun r =>
          (fillRouteRow r).depCountry = some c ∧ (fillRouteRow r).arrCountry = some c)).map
          fillRouteRow) := by
    show (routes.map fillRouteRow).filter
        (fun r => decide (r.depCountry = some c ∧ r.arrCountry = some c)) =
      (routes.filter (fun r =>
          decide ((fillRouteRow r).depCountry = some c ∧ (fillRouteRow r).arrCountry = some c))).map
        fillRouteRow
    exact filter_map_comm fillRouteRow _ routes
  rw [h]

/-! ## C6 -/

/-- C6: with `specific_date='latest'` at state or country granularity,
the single date column aggregated per group is the last date column in
column order, and every output table carries exactly that one date
column after Lat and Long. -/
theorem latest_uses_last_date_column (st : CovidState) (g : String)
    (country : Option String) (out : DataDict × Option RoutesAgg)
    (hg : g = "state" ∨ g = "country")
    (h : getData st g country (some "latest") = Except.ok out) :
    ∃ d, st.confirmed_df.dates.getLast? = some d ∧
      out.1.confirmed = processTable g [d] (countryFilter country (fillTable st.confirmed_df)) ∧
      out.1.deaths = processTable g [d] (countryFilter country (fillTable st.deaths_df)) ∧
      (∀ t, out.1.recovered = some t →
        t = processTable g [d] (countryFilter country (fillTable st.recovered_df))) ∧
      (∀ t, t ∈ dictTables out.1 →
        ∃ a, t = TableRes.agg a ∧ a.valCols = ["Lat", "Long", d]) := by
  obtain ⟨-, sel, hsel, hout⟩ := getData_ok_inv st g country (some "latest") out h
  cases hl : st.confirmed_df.dates.getLast? with
  | none =>
    exfalso
    simp only [selectedDates, if_true] at hsel
    rw [hl] at hsel
    exact Except.noConfusion
      (show Except.error DataError.latestIndexError =
        (Except.ok sel : Except DataError (List String)) from hsel)
  | some d =>
    have hsel2 : sel = [d] := by
      simp only [selectedDates, if_true] at hsel
      rw [hl] at hsel
      have h5 : Except.ok [d] = (Except.ok sel : Except DataError (List String)) := hsel
      injection h5 with h6
      exact h6.symm
    subst hsel2
    subst hout
    refine ⟨d, rfl, rfl, rfl, ?_, ?_⟩
    · intro t ht
      by_cases hc : g = "country"
      · rw [if_pos hc] at ht
        injection ht with h3
        exact h3.symm
      · rw [if_neg hc] at ht
        exact Option.noConfusion ht
    · intro t htmem
      rcases hg with hgs | hgs <;> subst hgs
      · simp only [dictTables, processTable_state, if_neg (by decide : ¬"state" = "country"),
          Option.toList_none, List.append_nil, List.mem_cons, List.not_mem_nil,
          or_false] at htmem
        rcases htmem with h4 | h4 <;> subst h4 <;> exact ⟨_, rfl, rfl⟩
      · simp only [dictTables, processTable_country, if_true, Option.toList_some,
          List.mem_append, List.mem_cons, List.mem_singleton, List.not_mem_nil,
          or_false] at htmem
        rcases htmem with (h4 | h4) | h4 <;> subst h4 <;> exact ⟨_, rfl, rfl⟩

/-- C6 witness: the latest-date behaviour at state granularity on the
concrete state, whose last date column is `1/23/20`. -/
theorem latest_uses_last_date_column_witness :
    ∃ out, getData wState "state" none (some "latest") = Except.ok out ∧
      ∃ d, wState.confirmed_df.dates.getLast? = some d ∧
        out.1.confirmed =
          processTable "state" [d] (countryFilter none (fillTable wState.confirmed_df)) ∧
        out.1.deaths =
          processTable "state" [d] (countryFilter none (fillTable wState.deaths_df)) ∧
        (∀ t, out.1.recovered = some t →
          t = processTable "state" [d] (countryFilter none (fillTable wState.recovered_df))) ∧
        (∀ t, t ∈ dictTables out.1 →
          ∃ a, t = TableRes.agg a ∧ a.valCols = ["Lat", "Long", d]) := by
  refine ⟨_, rfl, latest_uses_last_date_column wState "state" none _ (Or.inl rfl) rfl⟩

/-! ## C7 -/

/-- C7: a successful `getData` call returns a dictionary containing
the recovered key exactly when the requested granularity is country;
at county or state granularity the recovered table is silently
omitted, not an error. -/
theorem recovered_iff_country_granularity (st : CovidState) (g : String)
    (country sd : Option String) (out : DataDict × Option RoutesAgg)
    (h : getData st g country sd = Except.ok out) :
    out.1.recovered.isSome ↔ g = "country" := by
  obtain ⟨-, sel, hsel, hout⟩ := getData_ok_inv st g country sd out h
  subst hout
  by_cases hc : g = "country" <;> simp [hc]

/-- C7 witness: at country granularity the recovered table is present
in the concrete call's result. -/
theorem recovered_iff_country_granularity_witness :
    ∃ out, getData wState "country" none none = Except.ok out ∧
      (out.1.recovered.isSome ↔ "country" = "country") := by
  refine ⟨_, rfl, recovered_iff_country_granularity wState "country" none none _ rfl⟩

/-! ## C8 -/

/-- C8: for every successful `getData` call at state or country
granularity, every output table's column order is exactly the
location-key fields of the granularity, then Lat, then Long, then the
selected date column(s). -/
theorem output_column_order (st : CovidState) (g : String)
    (country sd : Option String) (out : DataDict × Option RoutesAgg)
    (hg : g = "state" ∨ g = "country")
    (h : getData st g country sd = Except.ok out) :
    ∃ sel, selectedDates st.confirmed_df.dates sd = Except.ok sel ∧
      ∀ t ∈ dictTables out.1, ∃ a, t = TableRes.agg a ∧
        a.keyCols ++ a.valCols =
          (if g = "state" then ["Province/State", "Country/Region"]
           else ["Country/Region"]) ++ ["Lat", "Long"] ++ sel := by
  obtain ⟨-, sel, hsel, hout⟩ := getData_ok_inv st g country sd out h
  subst hout
  refine ⟨sel, hsel, ?_⟩
  intro t htmem
  rcases hg with hgs | hgs <;> subst hgs
  · rw [if_pos rfl]
    simp only [dictTables, processTable_state, if_neg (by decide : ¬"state" = "country"),
      Option.toList_none, List.append_nil, List.mem_cons, List.not_mem_nil,
      or_false] at htmem
    rcases htmem with h4 | h4 <;> subst h4 <;> exact ⟨_, rfl, rfl⟩
  · rw [if_neg (by decide : ¬"country" = "state")]
    simp only [dictTables, processTable_country, if_true, Option.toList_some,
      List.mem_append, List.mem_cons, List.mem_singleton, List.not_mem_nil,
      or_false] at htmem
    rcases htmem with (h4 | h4) | h4 <;> subst h4 <;> exact ⟨_, rfl, rfl⟩

/-- C8 witness: the column order at country granularity with all dates
selected, on the concrete state. -/
theorem output_column_order_witness :
    ∃ out, getData wState "country" none none = Except.ok out ∧
      ∃ sel, selectedDates wState.confirmed_df.dates none = Except.ok sel ∧
        ∀ t ∈ dictTables out.1, ∃ a, t = TableRes.agg a ∧
          a.keyCols ++ a.valCols =
            (if "country" = "state" then ["Province/State", "Country/Region"]
             else ["Country/Region"]) ++ ["Lat", "Long"] ++ sel := by
  refine ⟨_, rfl, output_column_order wState "country" none none _ (Or.inr rfl) rfl⟩

/-! ## C9 -/

/-- C9: at state or country granularity, every aggregated output table
(confirmed, deaths, recovered when present, and the route table) has at
most as many rows as the corresponding (optionally country-filtered)
input table. -/
theorem aggregated_row_count_le (st : CovidState) (g : String)
    (country sd : Option String) (out : DataDict × Option RoutesAgg)
    (hg : g = "state" ∨ g = "country")
    (h : getData st g country sd = Except.ok out) :
    (∃ a, out.1.confirmed = TableRes.agg a ∧
      a.rows.length ≤ (countryFilter country (fillTable st.confirmed_df)).rows.length) ∧
    (∃ a, out.1.deaths = TableRes.agg a ∧
      a.rows.length ≤ (countryFilter country (fillTable st.deaths_df)).rows.length) ∧
    (∀ a, out.1.recovered = some (TableRes.agg a) →
      a.rows.length ≤ (countryFilter country (fillTable st.recovered_df)).rows.length) ∧
    (∃ tbl, out.2 = some tbl ∧
      tbl.length ≤ (routeCountryFilter country (st.routes_df.map fillRouteRow)).length) := by
  obtain ⟨-, sel, hsel, hout⟩ := getData_ok_inv st g country sd out h
  subst hout
  rcases hg with hgs | hgs <;> subst hgs
  · refine ⟨⟨_, processTable_state sel _, aggregate_rows_length_le _ _ _ _⟩,
      ⟨_, processTable_state sel _, aggregate_rows_length_le _ _ _ _⟩, ?_, ?_⟩
    · intro a ha
      rw [show ((if "state" = "country" then
          some (processTable "state" sel (countryFilter country (fillTable st.recovered_df)))
        else none) : Option TableRes) = none from if_neg (by decide)] at ha
      exact Option.noConfusion ha
    · exact ⟨_, rfl, groupRouteCounts_length_le _ _⟩
  · refine ⟨⟨_, processTable_country sel _, aggregate_rows_length_le _ _ _ _⟩,
      ⟨_, processTable_country sel _, aggregate_rows_length_le _ _ _ _⟩, ?_, ?_⟩
    · intro a ha
      rw [if_pos rfl] at ha
      injection ha with h4
      rw [processTable_country] at h4
      injection h4 with h5
      rw [← h5]
      exact aggregate_rows_length_le _ _ _ _
    · exact ⟨_, rfl, groupRouteCounts_length_le _ _⟩

/-- C9 witness: the row-count bounds at state granularity on the
concrete state. -/
theorem aggregated_row_count_le_witness :
    ∃ out, getData wState "state" none none = Except.ok out ∧
      ((∃ a, out.1.confirmed = TableRes.agg a ∧
        a.rows.length ≤ (countryFilter none (fillTable wState.confirmed_df)).rows.length) ∧
       (∃ a, out.1.deaths = TableRes.agg a ∧
        a.rows.length ≤ (countryFilter none (fillTable wState.deaths_df)).rows.length) ∧
       (∀ a, out.1.recovered = some (TableRes.agg a) →
        a.rows.length ≤ (countryFilter none (fillTable wState.recovered_df)).rows.length) ∧
       (∃ tbl, out.2 = some tbl ∧
        tbl.length ≤ (routeCountryFilter none (wState.routes_df.map fillRouteRow)).length)) := by
  refine ⟨_, rfl, aggregated_row_count_le wState "state" none none _ (Or.inl rfl) rfl⟩

end CovidNetwork
